import Mathlib

/-!
Shallow embedding of the Kasa ASCOM Alpaca switch driver
(`src/device/switch.py`), covering the `KasaSwitchController` class
(connect / disconnect / `_get_device_list` / `_resolve_id` / `get_switch` /
`set_switch`) and the `canwrite` HTTP endpoint.

Modelling conventions:
* Machine state of the controller is the `ControllerState` record, holding
  exactly the fields the Python object mutates (`connected`, `device_list`,
  `device_objs`, `readonly_switches`, `cloud_switch_map`, `child_map`).
* The asynchronous backend (python-kasa) is abstracted by explicit inputs:
  discovery results are passed to `connect` as a `DiscoveryOutcome`, and the
  state reported by `update()` after each `set_switch` attempt is an
  observation function `obs : Nat → Bool`.
* Python exceptions become `Except` values; `DriverException(code, msg)`
  becomes `AlpacaError.driver code msg`, `InvalidValueException` becomes
  `AlpacaError.invalidValue`, a Python `AttributeError` (from accessing
  `.value` on `None`) becomes `AlpacaError.attrError`, and a Python
  `RuntimeError` (from `run_until_complete` on the already-running
  dedicated loop) becomes `AlpacaError.runtimeError`.
* Real-time sleeps and backend commands inside `set_switch` are recorded in
  an `Action` trace so that "no backend command was sent" and "exactly three
  attempts" are provable statements.
-/

deriving instance DecidableEq for Except

namespace Kasa

/-- A child outlet of a power strip, as exposed by python-kasa
(`dev.children[i]` with `.alias'` and `.is_on`). -/
structure ChildOutlet where
  alias' : String
  is_on : Bool
deriving DecidableEq

/-- A discovered python-kasa device after `update()`: display alias, child
outlets, the `features` dictionary (only the boolean `.value` of each feature
matters here, in particular `cloud_connection`), and the on/off flag. -/
structure Device where
  alias' : String
  children : List ChildOutlet
  features : List (String × Bool)
  is_on : Bool
deriving DecidableEq

def defaultChild : ChildOutlet := { alias' := "", is_on := false }

def defaultDevice : Device :=
  { alias' := "", children := [], features := [], is_on := false }

/-- Errors surfaced by the controller: `driver code msg` models
`DriverException(code, msg)`, `invalidValue` models `InvalidValueException`,
`attrError` models a Python `AttributeError`, and `runtimeError` models a
Python `RuntimeError` (raised for example by `run_until_complete` on an
already-running event loop). -/
inductive AlpacaError where
  | driver (code : Nat) (msg : String)
  | invalidValue (msg : String)
  | attrError (msg : String)
  | runtimeError (msg : String)
deriving DecidableEq

/-- The mutable state of `KasaSwitchController` (switch.py lines 52-62 and
the fields rebuilt by `connect`, lines 101-130). -/
structure ControllerState where
  connected : Bool
  device_list : List String
  device_objs : List Device
  readonly_switches : List Nat
  cloud_switch_map : List (Nat × Nat)
  child_map : List (Nat × Nat × Nat)
deriving DecidableEq

/-- `len(self.device_list)`, the value served by the `maxswitch` endpoint
(switch.py line 729): the number of published channels. -/
def channelCount (s : ControllerState) : Nat := s.device_list.length

/-- Fresh controller before any connect (switch.py `__init__`). -/
def initState : ControllerState :=
  { connected := false, device_list := [], device_objs := [],
    readonly_switches := [], cloud_switch_map := [], child_map := [] }

/-- Python `list.index(x)`: index of the first occurrence of `x`
(returns the length when absent; the source only calls it on present
elements). Used at switch.py lines 202 and 261. -/
def firstIdx (xs : List String) (x : String) : Nat :=
  match xs with
  | [] => 0
  | y :: ys => if y == x then 0 else firstIdx ys x + 1

/-- Python `dict.get` on `cloud_switch_map : index -> parent index`. -/
def lookupCloud (m : List (Nat × Nat)) (k : Nat) : Option Nat :=
  (m.find? (fun p => p.1 == k)).map (fun p => p.2)

/-- Python `dict.get` on `child_map : index -> (device index, child index)`. -/
def lookupChild (m : List (Nat × Nat × Nat)) (k : Nat) : Option (Nat × Nat) :=
  (m.find? (fun p => p.1 == k)).map (fun p => p.2)

/-- Python `dict.get` on the device `features` dictionary. -/
def lookupFeature (fs : List (String × Bool)) (k : String) : Option Bool :=
  (fs.find? (fun p => p.1 == k)).map (fun p => p.2)

/-- Output of the channel-table building loop of `connect`
(switch.py lines 104-127): the parallel name/object lists and the three
side tables, all addressed by absolute channel index. -/
structure BuildOut where
  names : List String
  objs : List Device
  readonly : List Nat
  cloudMap : List (Nat × Nat)
  childMap : List (Nat × Nat × Nat)
deriving DecidableEq

/-- The `for idx, dev in enumerate(self.device_objs)` loop of `connect`
(switch.py lines 109-125), written as structural recursion with the running
device index `devIdx` and the absolute base index `base` of the next channel.
Per device: append a `"Power"` entry (read-only), then a
`"Cloud Connection"` entry (read-only, cloud map entry pointing at the
`"Power"` index), then one entry per child outlet when children exist; a
childless device gets no further entry. -/
def buildFrom (devIdx base : Nat) : List Device → BuildOut
  | [] => ⟨[], [], [], [], []⟩
  | d :: ds =>
    let childNames := d.children.map ChildOutlet.alias'
    let rest := buildFrom (devIdx + 1) (base + 2 + childNames.length) ds
    ⟨"Power" :: "Cloud Connection" :: (childNames ++ rest.names),
     d :: d :: (List.replicate childNames.length d ++ rest.objs),
     base :: (base + 1) :: rest.readonly,
     (base + 1, base) :: rest.cloudMap,
     (List.range d.children.length).map (fun c => (base + 2 + c, devIdx, c))
       ++ rest.childMap⟩

/-- Input fed to `connect`: either `fut.result()` itself raised
(`bridgeError`, switch.py lines 102-103 failing), or the coroutine returned,
in which case `_get_device_list` was run on an `Except`-shaped discovery
result: `.error` when `Discover.discover()` raised, `.ok found` with one
`Option Device` per discovered address (`none` when that device's
`update()` raised and it was excluded, switch.py lines 180-186). -/
inductive DiscoveryOutcome where
  | bridgeError (msg : String)
  | returned (r : Except String (List (Option Device)))

/-- `_get_device_list` (switch.py lines 170-192). It never raises: a total
discovery failure is caught at lines 190-192 and the lists collected so far
(empty) are returned; per-device update failures are caught and that device
is skipped. -/
def getDeviceList : Except String (List (Option Device)) → List String × List Device
  | .error _ => ([], [])
  | .ok found =>
    (found.filterMap (fun o => o.map Device.alias'), found.filterMap id)

/-- `connect` (switch.py lines 86-138). On the success path the raw
discovery lists are transformed by the building loop and published together
with `connected := true`. On the exception path (lines 134-138) only
`self.connected = False` is executed before re-raising
`DriverException(0x500, ...)`: the previously published lists and side
tables are left untouched. -/
def connect (s : ControllerState) (outcome : DiscoveryOutcome) :
    ControllerState × Except AlpacaError Unit :=
  match outcome with
  | .bridgeError msg =>
    ({ s with connected := false },
     .error (.driver 0x500 ("python-kasa devicelist failed: " ++ msg)))
  | .returned r =>
    let raw := getDeviceList r
    let b := buildFrom 0 0 raw.2
    ({ connected := true, device_list := b.names, device_objs := b.objs,
       readonly_switches := b.readonly, cloud_switch_map := b.cloudMap,
       child_map := b.childMap },
     .ok ())

/-- The controller state published by a successful `connect` whose discovery
found exactly `devs` (every per-device update succeeded). -/
def stateAfterConnect (devs : List Device) : ControllerState :=
  (connect initState (.returned (.ok (devs.map some)))).1

/-- `disconnect` (switch.py lines 140-165): sets `connected = False` and
clears `device_list` and `device_objs`; the side tables are not touched.
The event-loop teardown is wrapped in try/except (lines 148-157), so the
method completes normally; the loop bookkeeping is not part of this model. -/
def disconnect (s : ControllerState) : ControllerState :=
  { s with connected := false, device_list := [], device_objs := [] }

/-- External identifier accepted by `_resolve_id`: an integer index or a
name string (switch.py lines 302-312). -/
inductive SwitchId where
  | int (i : Int)
  | str (n : String)

/-- Python `str.lower()`, modelled as per-character lowercasing of the
underlying character list (structurally recursive so that proofs can
evaluate it). -/
def lowerStr (s : String) : String := ⟨s.data.map Char.toLower⟩

/-- The type-dispatch part of `_resolve_id` (switch.py lines 302-312):
integer path checks `id < 0 or id >= len(self.device_list)` and returns the
stored name; string path returns the first device-list entry whose
lower-cased form equals the lower-cased query. -/
def resolveIdCore (dl : List String) : SwitchId → Except AlpacaError String
  | .int i =>
    if i < 0 ∨ (dl.length : Int) ≤ i then
      .error (.invalidValue ("Switch id " ++ toString i ++ " out of range."))
    else
      .ok (dl.getD i.toNat "")
  | .str n =>
    match dl.find? (fun d => lowerStr n == lowerStr d) with
    | some d => .ok d
    | none =>
      .error (.invalidValue ("Switch name or GUID " ++ n ++ " not found."))

/-- Full `_resolve_id` (switch.py lines 299-312): when `self.device_list`
is empty it first calls
`self.loop.run_until_complete(self._get_device_list())` (line 301); but
the dedicated event loop is already running in its background thread
(started by `__init__` and restarted by `disconnect`), so in every
reachable state that call raises
`RuntimeError('This event loop is already running')` before any range
check, and the assignment on line 301 never completes. On a non-empty
list the type dispatch applies to the published list unchanged. -/
def resolveId (s : ControllerState) (id : SwitchId) :
    Except AlpacaError String :=
  if s.device_list.isEmpty then
    .error (.runtimeError "This event loop is already running")
  else
    resolveIdCore s.device_list id

/-- `get_switch` (switch.py lines 200-256). The channel index actually used
is `device_list.index(name)` (line 202), i.e. the first occurrence of the
resolved name. Cloud channels read the parent device's
`features.get('cloud_connection').value`; when the feature is absent the
Python code dereferences `None.value` and raises `AttributeError`.
Read-only non-cloud channels return `True`. Child channels return the
child's `is_on`; plain channels return the device's `is_on`. The `update()`
refreshes are no-ops here because device data is immutable in this model. -/
def get_switch (s : ControllerState) (id : SwitchId) :
    Except AlpacaError Bool :=
  match resolveId s id with
  | .error e => .error e
  | .ok name =>
    let idx := firstIdx s.device_list name
    match lookupCloud s.cloud_switch_map idx with
    | some parent_idx =>
      let dev := s.device_objs.getD parent_idx defaultDevice
      match lookupFeature dev.features "cloud_connection" with
      | some v => .ok v
      | none => .error (.attrError "NoneType object has no attribute value")
    | none =>
      if idx ∈ s.readonly_switches then .ok true
      else
        match lookupChild s.child_map idx with
        | some dc =>
          let dev := s.device_objs.getD idx defaultDevice
          .ok ((dev.children.getD dc.2 defaultChild).is_on)
        | none => .ok ((s.device_objs.getD idx defaultDevice).is_on)

/-- Backend-visible step performed by one `set_switch` attempt: sending the
on/off command, sleeping the settle delay, or refreshing via `update()`. -/
inductive Action where
  | send (b : Bool)
  | settle (secs : Rat)
  | refresh
deriving DecidableEq

/-- `max_retries = 3` (switch.py line 266). -/
def max_retries : Nat := 3

/-- `delay = 1.2` seconds (switch.py line 267). -/
def delay : Rat := 1.2

/-- The backend actions of one `set_switch` attempt (switch.py lines
271-281 and 286-294): send the command, sleep `delay`, refresh. -/
def attemptActions (state : Bool) : List Action :=
  [Action.send state, Action.settle delay, Action.refresh]

/-- The actions of `n` consecutive attempts. -/
def attemptsTrace (state : Bool) : Nat → List Action
  | 0 => []
  | n + 1 => attemptActions state ++ attemptsTrace state n

/-- Number of on/off commands sent in a trace. -/
def sendCount (tr : List Action) : Nat :=
  (tr.filter (fun a => match a with | .send _ => true | _ => false)).length

/-- The `for attempt in range(max_retries)` loop of `set_switch`
(switch.py lines 271-284 / 286-297): each attempt sends the command, sleeps,
refreshes, then compares the reported state (`obs k` is the state reported
after the refresh of attempt `k`); it returns on the first match and raises
`DriverException(0x501, ...)` when the fuel is exhausted. -/
def runAttempts (state : Bool) (obs : Nat → Bool) (failMsg : String) :
    Nat → Nat → Except AlpacaError Unit × List Action
  | 0, _ => (.error (.driver 0x501 failMsg), [])
  | fuel + 1, k =>
    if obs k = state then (.ok (), attemptActions state)
    else
      let r := runAttempts state obs failMsg fuel (k + 1)
      (r.1, attemptActions state ++ r.2)

/-- `set_switch` (switch.py lines 258-297): resolve the identifier, derive
the effective index via `device_list.index(name)`, reject read-only
channels with `DriverException(0x502, ...)` before any backend call, then
run the retry loop on the child or the device branch. The second component
is the trace of backend actions performed. -/
def set_switch (s : ControllerState) (obs : Nat → Bool) (state : Bool)
    (id : SwitchId) : Except AlpacaError Unit × List Action :=
  match resolveId s id with
  | .error e => (.error e, [])
  | .ok name =>
    let idx := firstIdx s.device_list name
    if idx ∈ s.readonly_switches then
      (.error (.driver 0x502 ("Switch " ++ name ++ " is read-only.")), [])
    else
      match lookupChild s.child_map idx with
      | some dc =>
        let dev := s.device_objs.getD dc.1 defaultDevice
        let child := dev.children.getD dc.2 defaultChild
        runAttempts state obs
          ("Failed to set switch state for " ++ child.alias' ++ " of "
            ++ dev.alias') max_retries 0
      | none =>
        let dev := s.device_objs.getD idx defaultDevice
        runAttempts state obs
          ("Failed to set switch state for " ++ dev.alias') max_retries 0

/-- Response of the `canwrite` endpoint (switch.py lines 595-614). -/
inductive EndpointResp where
  | ok (b : Bool)
  | notConnected
  | invalidId
deriving DecidableEq

/-- `canwrite.on_get` (switch.py lines 595-614): NotConnected when the
controller is disconnected, invalid-id when the Id field does not parse as
an integer; otherwise `can_write` starts `True` and is set to `False` only
when the id is in `readonly_switches` — there is no range check. -/
def canwrite_on_get (s : ControllerState) (idstr : Option Int) : EndpointResp :=
  if s.connected = false then .notConnected
  else
    match idstr with
    | none => .invalidId
    | some id =>
      let can_write :=
        if s.readonly_switches.any (fun r => (r : Int) == id) then false
        else true
      .ok can_write

/-! Sample devices used by concrete witnesses and counterexamples. -/

/-- A power strip with one child outlet and cloud capability. -/
def sampleStrip : Device :=
  { alias' := "Power Strip",
    children := [{ alias' := "Child1", is_on := false }],
    features := [("cloud_connection", true)],
    is_on := true }

/-- A plain childless plug without cloud capability. -/
def sampleLamp : Device :=
  { alias' := "Desk Lamp", children := [], features := [], is_on := false }

/-- A strip whose child outlet is named `"POWER"`, clashing
case-insensitively with the synthetic `"Power"` channel name. -/
def samplePOWERStrip : Device :=
  { alias' := "Strip",
    children := [{ alias' := "POWER", is_on := false }],
    features := [("cloud_connection", true)],
    is_on := true }

/-- A strip whose child outlet is aliased exactly `"Power"`, colliding
with the synthetic read-only `"Power"` channel name. -/
def collideStrip : Device :=
  { alias' := "Strip2",
    children := [{ alias' := "Power", is_on := false }],
    features := [("cloud_connection", true)],
    is_on := true }

end Kasa

/-! ## General helper lemmas -/

namespace Kasa

theorem getD_of_getElem? {l : List String} {n : Nat} {a : String}
    (h : l[n]? = some a) : l.getD n "" = a := by
  simp [List.getD_eq_getElem?_getD, h]

theorem filterMap_id_map_some {α : Type} (l : List α) :
    (l.map some).filterMap id = l := by
  induction l with
  | nil => rfl
  | cons a l ih => simp [ih]

/-- The channel-name list produced by the building loop, in closed form:
for each device in discovery order, `"Power"`, `"Cloud Connection"`, then
the child aliases; nothing else. -/
theorem buildFrom_names (i b : Nat) (ds : List Device) :
    (buildFrom i b ds).names =
      ds.flatMap
        (fun d => "Power" :: "Cloud Connection"
          :: d.children.map ChildOutlet.alias') := by
  induction ds generalizing i b with
  | nil => rfl
  | cons d ds ih => simp [buildFrom, ih]

/-- `stateAfterConnect` in terms of the building loop alone. -/
theorem stateAfterConnect_eq (devs : List Device) :
    stateAfterConnect devs =
      { connected := true,
        device_list := (buildFrom 0 0 devs).names,
        device_objs := (buildFrom 0 0 devs).objs,
        readonly_switches := (buildFrom 0 0 devs).readonly,
        cloud_switch_map := (buildFrom 0 0 devs).cloudMap,
        child_map := (buildFrom 0 0 devs).childMap } := by
  simp [stateAfterConnect, connect, getDeviceList, filterMap_id_map_some]

/-- Every index in the read-only set of a built table is in range and its
channel name is `"Power"` or `"Cloud Connection"`. -/
theorem readonly_mem (i b : Nat) (ds : List Device) (r : Nat)
    (h : r ∈ (buildFrom i b ds).readonly) :
    b ≤ r ∧ r < b + (buildFrom i b ds).names.length ∧
      ((buildFrom i b ds).names[r - b]? = some "Power" ∨
       (buildFrom i b ds).names[r - b]? = some "Cloud Connection") := by
  induction ds generalizing i b with
  | nil => simp [buildFrom] at h
  | cons d ds ih =>
    simp only [buildFrom, List.mem_cons] at h ⊢
    rcases h with h | h | h
    · subst h
      refine ⟨Nat.le_refl _, by simp, ?_⟩
      simp
    · subst h
      refine ⟨Nat.le_add_right _ _, by simp, ?_⟩
      simp
    · obtain ⟨h1, h2, h3⟩ :=
        ih (i + 1) (b + 2 + (d.children.map ChildOutlet.alias').length) h
      simp only [List.length_map] at h1 h2 h3
      refine ⟨by omega, by simp; omega, ?_⟩
      simp only [List.length_map]
      have hsplit :
          ("Power" :: "Cloud Connection" ::
            (List.map ChildOutlet.alias' d.children ++
              (buildFrom (i + 1) (b + 2 + d.children.length) ds).names)) =
          ("Power" :: "Cloud Connection" ::
            List.map ChildOutlet.alias' d.children) ++
            (buildFrom (i + 1) (b + 2 + d.children.length) ds).names := by
        simp
      rw [hsplit, List.getElem?_append_right (by simp; omega)]
      have hidx : r - b -
          ("Power" :: "Cloud Connection" ::
            List.map ChildOutlet.alias' d.children).length
          = r - (b + 2 + d.children.length) := by
        simp; omega
      rw [hidx]
      exact h3


/-! ## Claim C1: state after a failed connect -/

/-- C1 counterexample. The claim states that after a failed `connect` the
channel table is empty. Concrete refutation: connect successfully to one
plain device (publishing a two-entry table), then run `connect` again with
the bridge submission failing; the second connect raises the wrapped
backend failure and leaves `connected = false`, yet `channelCount` is still
2 — the stale table from the previous session remains published. -/
theorem C1_stale_table_counterexample :
    (connect (stateAfterConnect [sampleLamp]) (.bridgeError "boom")).2 =
      .error (.driver 0x500 "python-kasa devicelist failed: boom") ∧
    (connect (stateAfterConnect [sampleLamp])
        (.bridgeError "boom")).1.connected = false ∧
    channelCount (connect (stateAfterConnect [sampleLamp])
        (.bridgeError "boom")).1 = 2 := by
  decide

/-- C1 (amended): if `connect()` fails, the controller reports
`connected = false` and the original backend exception message is wrapped
and re-raised as `DriverException(0x500, ...)`, but the channel table is
NOT cleared: `device_list`, `device_objs` and all side tables keep exactly
their previous (possibly non-empty, stale) values, because the exception
handler at switch.py lines 134-138 only assigns `self.connected = False`. -/
theorem C1_connect_failure_keeps_table (s : ControllerState) (msg : String) :
    connect s (.bridgeError msg) =
      ({ s with connected := false },
       .error (.driver 0x500 ("python-kasa devicelist failed: " ++ msg))) := by
  rfl

/-! ## Claim C2: total discovery failure is swallowed -/

/-- C2 counterexample. The claim states that when the backend discovery
call raises, `connect()` aborts with a backend failure and
`connected = false`. Concrete refutation: with discovery raising
("backend unreachable"), `connect` returns success, sets
`connected = true`, and publishes an empty channel table — exactly the
"succeed with an empty device set" outcome the claim excludes, because
`_get_device_list` catches the discovery exception (switch.py lines
190-192) and returns empty lists. -/
theorem C2_swallowed_discovery_counterexample :
    (connect initState (.returned (.error "unreachable"))).2 = .ok () ∧
    (connect initState (.returned (.error "unreachable"))).1.connected = true ∧
    channelCount (connect initState (.returned (.error "unreachable"))).1
      = 0 := by
  decide

/-- C2 (amended): if the backend discovery call itself raises,
`_get_device_list` catches the exception and returns empty lists, so
`connect()` does NOT abort: it completes successfully with
`connected = true` and an empty channel table, and no backend failure
reaches the caller. -/
theorem C2_discovery_failure_succeeds (s : ControllerState) (msg : String) :
    connect s (.returned (.error msg)) =
      ({ connected := true, device_list := [], device_objs := [],
         readonly_switches := [], cloud_switch_map := [], child_map := [] },
       .ok ()) := by
  rfl

/-! ## Claim C3: deterministic channel-table order -/

/-- C3 counterexample. For two discovered devices — the first with one
child outlet, the second plain and childless — the claim expects the order
`[Power(dev1), Cloud(dev1), child1, (meter entries), Power(dev2),
Cloud(dev2), dev2]`, with an entry for the childless second device itself.
Concrete refutation: the code builds exactly
`["Power", "Cloud Connection", "Child1", "Power", "Cloud Connection"]` —
five entries, no Switchable entry for the second device (its alias
"Desk Lamp" appears nowhere in the table) and no meter entries. -/
theorem C3_order_counterexample :
    (stateAfterConnect [sampleStrip, sampleLamp]).device_list =
      ["Power", "Cloud Connection", "Child1", "Power", "Cloud Connection"] ∧
    "Desk Lamp" ∉ (stateAfterConnect [sampleStrip, sampleLamp]).device_list
    := by
  decide

/-- C3 (amended): `connect()` builds the channel table in this
deterministic order: for each device in discovery order, a `"Power"` entry,
then a `"Cloud Connection"` entry unconditionally (not gated on cloud
capability), then one entry per child outlet when the device has children;
a childless device gets NO entry of its own, and no meter entries are
created. -/
theorem C3_table_order (devs : List Device) :
    (stateAfterConnect devs).device_list =
      devs.flatMap
        (fun d => "Power" :: "Cloud Connection"
          :: d.children.map ChildOutlet.alias') := by
  rw [stateAfterConnect_eq]
  exact buildFrom_names 0 0 devs

/-! ## Claim C8: disconnect is idempotent -/

/-- C8: `disconnect()` is idempotent: calling it twice in a row succeeds
both times (the method's event-loop teardown is wrapped in try/except at
switch.py lines 148-157, so it completes normally, which this model
reflects by `disconnect` being a total function), and afterwards
`connected = false` and `channelCount() = 0`. -/
theorem C8_disconnect_idempotent (s : ControllerState) :
    disconnect (disconnect s) = disconnect s ∧
    (disconnect (disconnect s)).connected = false ∧
    channelCount (disconnect (disconnect s)) = 0 := by
  exact ⟨rfl, rfl, rfl⟩


/-! ## Resolution helper lemmas -/

theorem resolveId_of_nonempty (s : ControllerState) (id : SwitchId)
    (h : s.device_list ≠ []) :
    resolveId s id = resolveIdCore s.device_list id := by
  have he : s.device_list.isEmpty = false := by
    simpa [List.isEmpty_iff] using h
  simp [resolveId, he]

theorem resolveIdCore_int_in_range (dl : List String) (i : Nat)
    (name : String) (h : dl[i]? = some name) :
    resolveIdCore dl (.int (i : Int)) = .ok name := by
  have hlt : i < dl.length := by
    by_contra hge
    rw [List.getElem?_eq_none (by omega)] at h
    exact Option.noConfusion h
  have hcond : ¬((i : Int) < 0 ∨ (dl.length : Int) ≤ (i : Int)) := by
    omega
  simp only [resolveIdCore, if_neg hcond]
  rw [Int.toNat_natCast]
  exact congrArg Except.ok (getD_of_getElem? h)

/-! ## Claim C9: out-of-range resolution -/

/-- C9 counterexample. In the connected-with-no-devices state the channel
count is 0, so the claim demands that `resolve(0)` (an index `>=`
`channelCount()`) and `resolve(-1)` fail with OutOfRange. But with an
empty `device_list`, `_resolve_id` first calls
`self.loop.run_until_complete(self._get_device_list())` (switch.py line
301) on the dedicated event loop that is already running in its background
thread, which raises `RuntimeError` before any range check: both calls
fail, but with `RuntimeError`, not with the OutOfRange
`InvalidValueException`. -/
theorem C9_empty_table_counterexample :
    channelCount (stateAfterConnect []) = 0 ∧
    resolveId (stateAfterConnect []) (.int 0) =
      .error (.runtimeError "This event loop is already running") ∧
    resolveId (stateAfterConnect []) (.int (-1)) =
      .error (.runtimeError "This event loop is already running") := by
  decide

/-- C9 (amended): when the published channel table is non-empty,
`resolve(i)` fails with OutOfRange (`InvalidValueException`) for every
integer `i` with `i < 0` or `i >= channelCount()`; when the table is
empty, `_resolve_id` first calls `run_until_complete` on the
already-running dedicated loop, which raises `RuntimeError` before any
range check, so out-of-range identifiers (including `resolve(-1)` and
`resolve(channelCount())`) fail with `RuntimeError` instead of
OutOfRange. -/
theorem C9_out_of_range (s : ControllerState) (i : Int)
    (hout : i < 0 ∨ (channelCount s : Int) ≤ i) :
    (s.device_list ≠ [] →
      resolveId s (.int i) =
        .error (.invalidValue ("Switch id " ++ toString i
          ++ " out of range."))) ∧
    (s.device_list = [] →
      resolveId s (.int i) =
        .error (.runtimeError "This event loop is already running")) := by
  constructor
  · intro hne
    rw [resolveId_of_nonempty _ _ hne]
    simp only [resolveIdCore]
    rw [if_pos (show i < 0 ∨ (s.device_list.length : Int) ≤ i from hout)]
  · intro hemp
    simp [resolveId, hemp]

/-- C9 witness: `resolve(2)` on a two-channel table (`resolve(i)` with
`i = channelCount()`) — the non-empty branch yields the out-of-range
failure and the empty branch holds vacuously. -/
theorem C9_out_of_range_witness :
    ((stateAfterConnect [sampleLamp]).device_list ≠ [] →
      resolveId (stateAfterConnect [sampleLamp]) (.int 2) =
        .error (.invalidValue "Switch id 2 out of range.")) ∧
    ((stateAfterConnect [sampleLamp]).device_list = [] →
      resolveId (stateAfterConnect [sampleLamp]) (.int 2) =
        .error (.runtimeError "This event loop is already running")) := by
  exact C9_out_of_range (stateAfterConnect [sampleLamp]) 2
    (Or.inr (by decide))

/-! ## Claim C10: canwrite performs no range check -/

/-- C10: while connected, `canwrite` succeeds and returns `true` for every
integer id outside the read-only set — including ids that are out of range
(`id < 0` or `id >= channelCount()`), because the handler
(switch.py lines 595-614) starts from `can_write = True` and only flips it
for members of `readonly_switches`, with no range check and no OutOfRange
failure. -/
theorem C10_canwrite_true (devs : List Device) (id : Int)
    (h : (id < 0 ∨ (channelCount (stateAfterConnect devs) : Int) ≤ id) ∨
         ∀ r ∈ (stateAfterConnect devs).readonly_switches, (r : Int) ≠ id) :
    canwrite_on_get (stateAfterConnect devs) (some id) = .ok true := by
  have hconn : (stateAfterConnect devs).connected = true := by
    rw [stateAfterConnect_eq]
  have hnotin : ∀ r ∈ (stateAfterConnect devs).readonly_switches,
      (r : Int) ≠ id := by
    rcases h with hrange | hro
    · intro r hr
      have hb := readonly_mem 0 0 devs r (by
        rw [stateAfterConnect_eq] at hr; exact hr)
      have hlen : r < (buildFrom 0 0 devs).names.length := by
        omega
      have hcc : channelCount (stateAfterConnect devs)
          = (buildFrom 0 0 devs).names.length := by
        rw [stateAfterConnect_eq]; rfl
      rw [hcc] at hrange
      omega
    · exact hro
  have hany : (stateAfterConnect devs).readonly_switches.any
      (fun r => (r : Int) == id) = false := by
    rw [List.any_eq_false]
    intro r hr
    simpa using hnotin r hr
  simp [canwrite_on_get, hconn, hany]

/-- C10 witness: with a single plain device connected (channel count 2),
`canwrite(99)` — far out of range — succeeds and returns `true`. -/
theorem C10_canwrite_true_witness :
    canwrite_on_get (stateAfterConnect [sampleLamp]) (some 99) = .ok true := by
  exact C10_canwrite_true [sampleLamp] 99 (Or.inl (by decide))


/-- C1 witness: the amended statement evaluated at a concrete state and
message. -/
theorem C1_connect_failure_keeps_table_witness :
    connect (stateAfterConnect [sampleLamp]) (.bridgeError "boom") =
      ({ stateAfterConnect [sampleLamp] with connected := false },
       .error (.driver 0x500 "python-kasa devicelist failed: boom")) := by
  exact C1_connect_failure_keeps_table (stateAfterConnect [sampleLamp]) "boom"

/-- C2 witness: the amended statement evaluated at a concrete state and
message. -/
theorem C2_discovery_failure_succeeds_witness :
    connect (stateAfterConnect [sampleLamp]) (.returned (.error "down")) =
      ({ connected := true, device_list := [], device_objs := [],
         readonly_switches := [], cloud_switch_map := [], child_map := [] },
       .ok ()) := by
  exact C2_discovery_failure_succeeds (stateAfterConnect [sampleLamp]) "down"

/-- C3 witness: the amended table order evaluated on a concrete two-device
discovery result. -/
theorem C3_table_order_witness :
    (stateAfterConnect [sampleStrip, sampleLamp]).device_list =
      [sampleStrip, sampleLamp].flatMap
        (fun d => "Power" :: "Cloud Connection"
          :: d.children.map ChildOutlet.alias') := by
  exact C3_table_order [sampleStrip, sampleLamp]

/-- C8 witness: double disconnect evaluated at a concrete connected
state. -/
theorem C8_disconnect_idempotent_witness :
    disconnect (disconnect (stateAfterConnect [sampleLamp]))
      = disconnect (stateAfterConnect [sampleLamp]) ∧
    (disconnect (disconnect (stateAfterConnect [sampleLamp]))).connected
      = false ∧
    channelCount (disconnect (disconnect (stateAfterConnect [sampleLamp])))
      = 0 := by
  exact C8_disconnect_idempotent (stateAfterConnect [sampleLamp])


/-! ## Retry-loop lemmas for set_switch -/

theorem attemptsTrace_succ (state : Bool) (n : Nat) :
    attemptsTrace state (n + 1) = attemptActions state ++ attemptsTrace state n := rfl

theorem run3_unfold_a (state : Bool) (obs : Nat → Bool) (msg : String) :
    runAttempts state obs msg 3 0 =
      if obs 0 = state then ((.ok (), attemptActions state) :
        Except AlpacaError Unit × List Action)
      else ((runAttempts state obs msg 2 1).1,
        attemptActions state ++ (runAttempts state obs msg 2 1).2) := rfl

theorem run3_unfold_b (state : Bool) (obs : Nat → Bool) (msg : String) :
    runAttempts state obs msg 2 1 =
      if obs 1 = state then ((.ok (), attemptActions state) :
        Except AlpacaError Unit × List Action)
      else ((runAttempts state obs msg 1 2).1,
        attemptActions state ++ (runAttempts state obs msg 1 2).2) := rfl

theorem run3_unfold_c (state : Bool) (obs : Nat → Bool) (msg : String) :
    runAttempts state obs msg 1 2 =
      if obs 2 = state then ((.ok (), attemptActions state) :
        Except AlpacaError Unit × List Action)
      else (.error (.driver 0x501 msg), attemptActions state ++ []) := rfl

/-- Success on the first matching attempt: when attempt `m` (0-based,
`m < 3`) is the first whose refreshed reading equals the desired state, the
loop returns success having performed exactly `m + 1` attempts. -/
theorem runAttempts_first_match (state : Bool) (obs : Nat → Bool)
    (msg : String) (m : Nat) (hm : m < max_retries) (hmatch : obs m = state)
    (hleast : ∀ j, j < m → obs j ≠ state) :
    runAttempts state obs msg max_retries 0 =
      (.ok (), attemptsTrace state (m + 1)) := by
  have hm3 : m < 3 := hm
  interval_cases m
  · rw [show max_retries = 3 from rfl, run3_unfold_a, if_pos hmatch]
    rfl
  · have h0 := hleast 0 (by omega)
    rw [show max_retries = 3 from rfl, run3_unfold_a, if_neg h0,
      run3_unfold_b, if_pos hmatch]
    rfl
  · have h0 := hleast 0 (by omega)
    have h1 := hleast 1 (by omega)
    rw [show max_retries = 3 from rfl, run3_unfold_a, if_neg h0,
      run3_unfold_b, if_neg h1, run3_unfold_c, if_pos hmatch]
    rfl

/-- Exhaustion: when none of the three refreshed readings equals the
desired state, the loop raises `DriverException(0x501, msg)` after exactly
three attempts. -/
theorem runAttempts_all_fail (state : Bool) (obs : Nat → Bool)
    (msg : String) (h : ∀ k, k < max_retries → obs k ≠ state) :
    runAttempts state obs msg max_retries 0 =
      (.error (.driver 0x501 msg), attemptsTrace state max_retries) := by
  have h0 := h 0 (by decide)
  have h1 := h 1 (by decide)
  have h2 := h 2 (by decide)
  rw [show max_retries = 3 from rfl, run3_unfold_a, if_neg h0,
    run3_unfold_b, if_neg h1, run3_unfold_c, if_neg h2]
  rfl

/-- The loop never performs more than `max_retries` send commands. -/
theorem runAttempts_sendCount_le (state : Bool) (obs : Nat → Bool)
    (msg : String) :
    sendCount (runAttempts state obs msg max_retries 0).2 ≤ max_retries := by
  by_cases h0 : obs 0 = state
  · rw [show max_retries = 3 from rfl, run3_unfold_a, if_pos h0]
    simp [sendCount, attemptActions]
  · by_cases h1 : obs 1 = state
    · rw [show max_retries = 3 from rfl, run3_unfold_a, if_neg h0,
        run3_unfold_b, if_pos h1]
      simp [sendCount, attemptActions]
    · by_cases h2 : obs 2 = state
      · rw [show max_retries = 3 from rfl, run3_unfold_a, if_neg h0,
          run3_unfold_b, if_neg h1, run3_unfold_c, if_pos h2]
        simp [sendCount, attemptActions]
      · rw [show max_retries = 3 from rfl, run3_unfold_a, if_neg h0,
          run3_unfold_b, if_neg h1, run3_unfold_c, if_neg h2]
        simp [sendCount, attemptActions]


/-! ## Claim C5: bounded verify-and-retry write -/

/-- C5 counterexample. The claim quantifies over every Switchable channel,
but a Switchable channel whose display name collides with a read-only
entry never reaches the retry loop: with a strip whose child outlet is
aliased exactly `"Power"`, channel 2 is Switchable (it is in `child_map`
and not in `readonly_switches`), yet `set_switch` re-derives its index via
`device_list.index("Power")` (switch.py line 261), lands on the synthetic
read-only entry 0 and raises `DriverException(0x502, ...)` with an empty
backend trace — zero attempts, no settle delay, no StateMismatch. -/
theorem C5_collision_counterexample :
    (2, 0, 0) ∈ (stateAfterConnect [collideStrip]).child_map ∧
    2 ∉ (stateAfterConnect [collideStrip]).readonly_switches ∧
    set_switch (stateAfterConnect [collideStrip]) (fun _ => false) true
        (.int 2) =
      (.error (.driver 0x502 "Switch Power is read-only."), []) := by
  decide

/-- C5 (amended): for every Switchable channel whose resolved display
name's first table occurrence is not read-only (no collision with a
`"Power"`/`"Cloud Connection"` entry), `set_switch` performs at most
`max_retries = 3` attempts, each consisting of sending the on/off
command, sleeping the fixed `delay = 1.2` second settle time and
refreshing (the `attemptActions` block); it succeeds on the first attempt
whose refreshed reading matches the desired state, having performed
exactly `m + 1` attempts, and when all three readings mismatch it fails
with `DriverException(0x501, ...)` after exactly three attempts; the last
observed reading `obs 2` is then necessarily the negation of the desired
state, so the failure determines it. A Switchable channel whose name
collides with an earlier read-only entry is instead rejected as read-only
with zero attempts (see the counterexample). -/
theorem C5_write_retry (s : ControllerState) (obs : Nat → Bool)
    (state : Bool) (id : SwitchId) (name : String)
    (hres : resolveId s id = .ok name)
    (hrw : firstIdx s.device_list name ∉ s.readonly_switches) :
    ∃ failMsg,
      sendCount (set_switch s obs state id).2 ≤ max_retries ∧
      (∀ m, m < max_retries → obs m = state → (∀ j, j < m → obs j ≠ state) →
        set_switch s obs state id =
          (.ok (), attemptsTrace state (m + 1))) ∧
      ((∀ k, k < max_retries → obs k ≠ state) →
        set_switch s obs state id =
          (.error (.driver 0x501 failMsg), attemptsTrace state max_retries) ∧
        obs 2 = !state) := by
  have hobs2 : (∀ k, k < max_retries → obs k ≠ state) → obs 2 = !state := by
    intro h
    have h2 := h 2 (by decide)
    cases state <;> cases hb : obs 2 <;> simp_all
  have hred : ∀ failMsg,
      set_switch s obs state id =
        runAttempts state obs failMsg max_retries 0 →
      sendCount (set_switch s obs state id).2 ≤ max_retries ∧
      (∀ m, m < max_retries → obs m = state → (∀ j, j < m → obs j ≠ state) →
        set_switch s obs state id =
          (.ok (), attemptsTrace state (m + 1))) ∧
      ((∀ k, k < max_retries → obs k ≠ state) →
        set_switch s obs state id =
          (.error (.driver 0x501 failMsg), attemptsTrace state max_retries) ∧
        obs 2 = !state) := by
    intro failMsg heq
    refine ⟨?_, ?_, ?_⟩
    · rw [heq]; exact runAttempts_sendCount_le state obs failMsg
    · intro m hm hmatch hleast
      rw [heq]; exact runAttempts_first_match state obs failMsg m hm hmatch hleast
    · intro h
      exact ⟨by rw [heq]; exact runAttempts_all_fail state obs failMsg h,
        hobs2 h⟩
  have hmain : ∃ failMsg, set_switch s obs state id =
      runAttempts state obs failMsg max_retries 0 := by
    simp only [set_switch, hres]
    rw [if_neg hrw]
    cases hc : lookupChild s.child_map (firstIdx s.device_list name) with
    | none => exact ⟨_, rfl⟩
    | some dc => exact ⟨_, rfl⟩
  obtain ⟨failMsg, heq⟩ := hmain
  exact ⟨failMsg, hred failMsg heq⟩


theorem firstIdx_built_power (d : Device) (ds : List Device) :
    firstIdx (buildFrom 0 0 (d :: ds)).names "Power" = 0 := rfl

theorem firstIdx_built_cloud (d : Device) (ds : List Device) :
    firstIdx (buildFrom 0 0 (d :: ds)).names "Cloud Connection" = 1 := rfl

theorem zero_mem_built_readonly (d : Device) (ds : List Device) :
    0 ∈ (buildFrom 0 0 (d :: ds)).readonly := by
  simp [buildFrom]

theorem one_mem_built_readonly (d : Device) (ds : List Device) :
    1 ∈ (buildFrom 0 0 (d :: ds)).readonly := by
  simp [buildFrom]

theorem built_names_ne_nil (d : Device) (ds : List Device) :
    (buildFrom 0 0 (d :: ds)).names ≠ [] := by
  simp [buildFrom]


/-! ## Claim C6: read-only channels reject writes before any backend call -/

/-- C6: for every read-only channel (the `"Power"` PowerIndicator and
`"Cloud Connection"` CloudLink entries; the table contains no MeterGauge
channels), `set_switch` fails with `DriverException(0x502, ...)` and its
backend-action trace is empty: the rejection happens before any on/off
command, settle sleep or refresh, leaving device state untouched. -/
theorem C6_readonly_write_rejected (devs : List Device) (obs : Nat → Bool)
    (state : Bool) (i : Nat)
    (h : i ∈ (stateAfterConnect devs).readonly_switches) :
    ∃ name, (stateAfterConnect devs).device_list[i]? = some name ∧
      (name = "Power" ∨ name = "Cloud Connection") ∧
      set_switch (stateAfterConnect devs) obs state (.int (i : Int)) =
        (.error (.driver 0x502 ("Switch " ++ name ++ " is read-only.")),
         []) := by
  cases devs with
  | nil =>
    rw [stateAfterConnect_eq] at h
    simp [buildFrom] at h
  | cons d ds =>
    have hro : i ∈ (buildFrom 0 0 (d :: ds)).readonly := by
      rw [stateAfterConnect_eq] at h
      exact h
    obtain ⟨-, -, hname⟩ := readonly_mem 0 0 (d :: ds) i hro
    simp only [Nat.sub_zero] at hname
    have hSdl : (stateAfterConnect (d :: ds)).device_list
        = (buildFrom 0 0 (d :: ds)).names := by
      rw [stateAfterConnect_eq]
    have hSro : (stateAfterConnect (d :: ds)).readonly_switches
        = (buildFrom 0 0 (d :: ds)).readonly := by
      rw [stateAfterConnect_eq]
    have hne : (stateAfterConnect (d :: ds)).device_list ≠ [] := by
      rw [hSdl]
      exact built_names_ne_nil d ds
    rcases hname with hn | hn
    · have hres : resolveId (stateAfterConnect (d :: ds))
          (.int (i : Int)) = .ok "Power" := by
        rw [resolveId_of_nonempty _ _ hne, hSdl]
        exact resolveIdCore_int_in_range _ _ _ hn
      refine ⟨"Power", by rw [hSdl]; exact hn, Or.inl rfl, ?_⟩
      simp only [set_switch, hres]
      rw [hSdl, firstIdx_built_power d ds, hSro,
        if_pos (zero_mem_built_readonly d ds)]
    · have hres : resolveId (stateAfterConnect (d :: ds))
          (.int (i : Int)) = .ok "Cloud Connection" := by
        rw [resolveId_of_nonempty _ _ hne, hSdl]
        exact resolveIdCore_int_in_range _ _ _ hn
      refine ⟨"Cloud Connection", by rw [hSdl]; exact hn, Or.inr rfl, ?_⟩
      simp only [set_switch, hres]
      rw [hSdl, firstIdx_built_cloud d ds, hSro,
        if_pos (one_mem_built_readonly d ds)]


/-- C5 witness: a child Switchable channel with a backend that never
reports the desired state; the theorem instance yields the exact
three-attempt failure characterization. -/
theorem C5_write_retry_witness :
    ∃ failMsg,
      sendCount (set_switch (stateAfterConnect [sampleStrip])
        (fun _ => false) true (.int 2)).2 ≤ max_retries ∧
      (∀ m, m < max_retries → (fun _ => false) m = true →
        (∀ j, j < m → (fun _ => false) j ≠ true) →
        set_switch (stateAfterConnect [sampleStrip])
          (fun _ => false) true (.int 2) =
          (.ok (), attemptsTrace true (m + 1))) ∧
      ((∀ k, k < max_retries → (fun _ => false) k ≠ true) →
        set_switch (stateAfterConnect [sampleStrip])
          (fun _ => false) true (.int 2) =
          (.error (.driver 0x501 failMsg), attemptsTrace true max_retries) ∧
        (fun _ => false) 2 = !true) := by
  exact C5_write_retry (stateAfterConnect [sampleStrip])
    (fun _ => false) true (.int 2) "Child1" (by decide) (by decide)

/-- C6 witness: writing to channel 0 (the `"Power"` indicator of a plain
device) is rejected with the read-only failure and an empty backend
trace. -/
theorem C6_readonly_write_rejected_witness :
    ∃ name,
      (stateAfterConnect [sampleLamp]).device_list[(0 : Nat)]? = some name ∧
      (name = "Power" ∨ name = "Cloud Connection") ∧
      set_switch (stateAfterConnect [sampleLamp]) (fun _ => false)
          true (.int ((0 : Nat) : Int)) =
        (.error (.driver 0x502 ("Switch " ++ name ++ " is read-only.")),
         []) := by
  exact C6_readonly_write_rejected [sampleLamp] (fun _ => false) true 0
    (by decide)


/-! ## Claim C7: CloudLink reads -/

/-- Every key in the cloud map of a built table is in range and its channel
name is `"Cloud Connection"`. -/
theorem cloudMap_mem (i b : Nat) (ds : List Device) (kp : Nat × Nat)
    (h : kp ∈ (buildFrom i b ds).cloudMap) :
    b ≤ kp.1 ∧ kp.1 < b + (buildFrom i b ds).names.length ∧
      (buildFrom i b ds).names[kp.1 - b]? = some "Cloud Connection" := by
  induction ds generalizing i b with
  | nil => simp [buildFrom] at h
  | cons d ds ih =>
    simp only [buildFrom, List.mem_cons] at h ⊢
    rcases h with h | h
    · subst h
      refine ⟨Nat.le_add_right _ _, by simp, ?_⟩
      simp
    · obtain ⟨h1, h2, h3⟩ :=
        ih (i + 1) (b + 2 + (d.children.map ChildOutlet.alias').length) h
      simp only [List.length_map] at h1 h2 h3
      refine ⟨by omega, by simp; omega, ?_⟩
      simp only [List.length_map]
      have hsplit :
          ("Power" :: "Cloud Connection" ::
            (List.map ChildOutlet.alias' d.children ++
              (buildFrom (i + 1) (b + 2 + d.children.length) ds).names)) =
          ("Power" :: "Cloud Connection" ::
            List.map ChildOutlet.alias' d.children) ++
            (buildFrom (i + 1) (b + 2 + d.children.length) ds).names := by
        simp
      rw [hsplit, List.getElem?_append_right (by simp; omega)]
      have hidx : kp.1 - b -
          ("Power" :: "Cloud Connection" ::
            List.map ChildOutlet.alias' d.children).length
          = kp.1 - (b + 2 + d.children.length) := by
        simp; omega
      rw [hidx]
      exact h3

theorem lookupCloud_built (d : Device) (ds : List Device) :
    lookupCloud (buildFrom 0 0 (d :: ds)).cloudMap 1 = some 0 := rfl

theorem objs_built_head (d : Device) (ds : List Device) :
    (buildFrom 0 0 (d :: ds)).objs.getD 0 defaultDevice = d := rfl

/-- C7 counterexample. The claim states that when the backing device does
not expose the cloud-connection capability, reading the CloudLink channel
returns false. Concrete refutation: for a device without the
`cloud_connection` feature, `features.get('cloud_connection')` yields
`None` and the code dereferences `.value` on it, so the read raises
`AttributeError` instead of returning false. -/
theorem C7_absent_cloud_counterexample :
    get_switch (stateAfterConnect [sampleLamp]) (.int 1) =
      .error (.attrError "NoneType object has no attribute value") := by
  decide

/-- C7 (amended): reading any CloudLink channel refreshes and consults the
first discovered device (duplicate `"Cloud Connection"` names make
`device_list.index` collapse every cloud channel onto index 1, whose map
entry points at device 0): when that device exposes the
`cloud_connection` capability the read returns its boolean value, and when
the capability is absent the read fails with an `AttributeError`
(`features.get` returns `None` and `.value` is dereferenced) instead of
reporting false. -/
theorem C7_cloud_read (d : Device) (rest : List Device) (i p : Nat)
    (h : (i, p) ∈ (stateAfterConnect (d :: rest)).cloud_switch_map) :
    get_switch (stateAfterConnect (d :: rest)) (.int (i : Int)) =
      (match lookupFeature d.features "cloud_connection" with
       | some v => .ok v
       | none =>
         .error (.attrError "NoneType object has no attribute value")) := by
  have hcm : (i, p) ∈ (buildFrom 0 0 (d :: rest)).cloudMap := by
    rw [stateAfterConnect_eq] at h
    exact h
  obtain ⟨-, -, hn⟩ := cloudMap_mem 0 0 (d :: rest) (i, p) hcm
  simp only [Nat.sub_zero] at hn
  have hSdl : (stateAfterConnect (d :: rest)).device_list
      = (buildFrom 0 0 (d :: rest)).names := by
    rw [stateAfterConnect_eq]
  have hScm : (stateAfterConnect (d :: rest)).cloud_switch_map
      = (buildFrom 0 0 (d :: rest)).cloudMap := by
    rw [stateAfterConnect_eq]
  have hSobjs : (stateAfterConnect (d :: rest)).device_objs
      = (buildFrom 0 0 (d :: rest)).objs := by
    rw [stateAfterConnect_eq]
  have hne : (stateAfterConnect (d :: rest)).device_list ≠ [] := by
    rw [hSdl]
    exact built_names_ne_nil d rest
  have hres : resolveId (stateAfterConnect (d :: rest))
      (.int (i : Int)) = .ok "Cloud Connection" := by
    rw [resolveId_of_nonempty _ _ hne, hSdl]
    exact resolveIdCore_int_in_range _ _ _ hn
  simp only [get_switch, hres]
  rw [hSdl, firstIdx_built_cloud d rest, hScm, lookupCloud_built d rest]
  rw [hSobjs]
  rfl

/-- C7 witness: on a device exposing the cloud capability with value
`true`, reading the CloudLink channel (index 1) yields that value. -/
theorem C7_cloud_read_witness :
    get_switch (stateAfterConnect [sampleStrip])
        (.int ((1 : Nat) : Int)) =
      (match lookupFeature sampleStrip.features "cloud_connection" with
       | some v => .ok v
       | none =>
         .error (.attrError "NoneType object has no attribute value")) := by
  exact C7_cloud_read sampleStrip [] 1 0 (by decide)


/-! ## Claim C4: index and name resolution agree -/

/-- When every pair of case-insensitively equal entries of the list is
actually identical, resolving a present name case-insensitively returns
that very name. -/
theorem resolveIdCore_str_self (dl : List String) (name : String)
    (hmem : name ∈ dl)
    (hdup : ∀ x ∈ dl, ∀ y ∈ dl, lowerStr x = lowerStr y → x = y) :
    resolveIdCore dl (.str name) = .ok name := by
  cases hf : dl.find? (fun d => lowerStr name == lowerStr d) with
  | none =>
    rw [List.find?_eq_none] at hf
    have := hf name hmem
    simp at this
  | some y =>
    have hy : lowerStr name = lowerStr y := by
      have hp := List.find?_some hf
      simpa using hp
    have hymem : y ∈ dl := List.mem_of_find?_eq_some hf
    have heq : y = name := hdup y hymem name hmem hy.symm
    simp [resolveIdCore, hf, heq]

/-- C4 counterexample. The claim states that resolving an index and then
resolving the display name of that channel designate the same channel, so
reads through the name reach the same channel as reads through the index.
Concrete refutation: a strip whose child outlet is named `"POWER"` builds
the table `["Power", "Cloud Connection", "POWER"]`; `resolve(2)` succeeds
with `"POWER"`, but reading channel 2 by index reads the child outlet
(`is_on = false`) while reading by the name `"POWER"` case-insensitively
matches `"Power"` first and reads the PowerIndicator channel 0
(always true): different channels, different results. -/
theorem C4_case_collision_counterexample :
    resolveId (stateAfterConnect [samplePOWERStrip]) (.int 2)
      = .ok "POWER" ∧
    get_switch (stateAfterConnect [samplePOWERStrip]) (.int 2)
      = .ok false ∧
    get_switch (stateAfterConnect [samplePOWERStrip]) (.str "POWER")
      = .ok true := by
  decide

/-- C4 (amended): for every connected state and every index
`0 <= i < channelCount()`, `resolve(i)` succeeds; and provided no two
distinct channel names are case-insensitively equal without being
identical strings, resolving the display name of channel `i` yields the
same name, and every read and write through the name behaves identically
to the read or write through the index (both dispatch on
`device_list.index(name)`, the first occurrence of the resolved name).
With case-variant duplicate names the two paths can reach different
channels. -/
theorem C4_resolution (s : ControllerState) (i : Nat)
    (hi : i < channelCount s)
    (hdup : ∀ x ∈ s.device_list, ∀ y ∈ s.device_list,
      lowerStr x = lowerStr y → x = y) :
    ∃ name,
      resolveId s (.int (i : Int)) = .ok name ∧
      resolveId s (.str name) = .ok name ∧
      get_switch s (.int (i : Int)) = get_switch s (.str name) ∧
      (∀ obs st, set_switch s obs st (.int (i : Int))
        = set_switch s obs st (.str name)) := by
  have hlen : i < s.device_list.length := hi
  have hn : s.device_list[i]? = some s.device_list[i] :=
    List.getElem?_eq_getElem hlen
  have hmem : s.device_list[i] ∈ s.device_list := List.getElem_mem hlen
  have hne : s.device_list ≠ [] := by
    intro hnil
    rw [hnil] at hlen
    simp at hlen
  have h1 : resolveId s (.int (i : Int)) = .ok s.device_list[i] := by
    rw [resolveId_of_nonempty _ _ hne]
    exact resolveIdCore_int_in_range _ _ _ hn
  have h2 : resolveId s (.str s.device_list[i]) = .ok s.device_list[i] := by
    rw [resolveId_of_nonempty _ _ hne]
    exact resolveIdCore_str_self _ _ hmem hdup
  refine ⟨s.device_list[i], h1, h2, ?_, ?_⟩
  · simp only [get_switch, h1, h2]
  · intro obs st
    simp only [set_switch, h1, h2]

/-- C4 witness: on a duplicate-free two-channel table, resolving index 1
and resolving its name agree, and reads and writes through either path
coincide. -/
theorem C4_resolution_witness :
    ∃ name,
      resolveId (stateAfterConnect [sampleLamp])
        (.int ((1 : Nat) : Int)) = .ok name ∧
      resolveId (stateAfterConnect [sampleLamp]) (.str name) = .ok name ∧
      get_switch (stateAfterConnect [sampleLamp]) (.int ((1 : Nat) : Int))
        = get_switch (stateAfterConnect [sampleLamp]) (.str name) ∧
      (∀ obs st, set_switch (stateAfterConnect [sampleLamp]) obs st
          (.int ((1 : Nat) : Int))
        = set_switch (stateAfterConnect [sampleLamp]) obs st
          (.str name)) := by
  exact C4_resolution (stateAfterConnect [sampleLamp]) 1 (by decide)
    (by decide)

end Kasa
